import Mathlib

/-!
Shallow embedding of `src/NotesApp/PythonBridge.c` (a minimal C bridge
embedding CPython) and verification of its specification claims.

Modelling conventions:
* C strings are `List Char` when buffer capacity and NUL termination matter
  (the `set_error` error buffer), and Lean `String` elsewhere.
* A possibly-NULL buffer pointer is an `Option`.
* The CPython runtime is modelled by explicit success/failure flags for each
  C-API call the bridge makes (`Py_Initialize`, `PyRun_SimpleString`,
  imports, `StringIO` construction, `SetAttrString`), plus a pure semantics
  for the sys.path-priming script the bridge runs, which is deterministic
  given the environment variable and an `os.path.exists` oracle.
* `malloc`, `PyUnicode_AsUTF8`, `PyDict_New`, `PyEval_GetBuiltins`,
  `PyObject_GetAttrString sys "stdout"/"stderr"` and the restoring
  `SetAttrString` calls in the cleanup block are modelled as succeeding.
-/

namespace PyBridge

/-- The NUL terminator byte. -/
def nul : Char := Char.ofNat 0

/-- Embedding of `set_error` (PythonBridge.c lines 9-15).
The buffer is modelled by its full contents (`List Char`, length = capacity);
`none` models a NULL `buf` pointer.  The C code:
`if (!buf || len == 0) return;` then copies
`n = min(strlen(msg), len-1)` bytes of `msg` and NUL-terminates. -/
def set_error : Option (List Char) → List Char → Option (List Char)
  | none, _ => none
  | some buf, msg =>
      if buf.length = 0 then some buf
      else
        let n := if msg.length ≥ buf.length then buf.length - 1 else msg.length
        some (msg.take n ++ nul :: buf.drop (n + 1))

/-- The string stored in a C char buffer: the bytes before the first NUL. -/
def cstr (l : List Char) : List Char := l.takeWhile (fun c => c != nul)

/-- C1/C10 helper: the number of message bytes `set_error` copies. -/
def set_error_copy_len (bufLen msgLen : Nat) : Nat :=
  if msgLen ≥ bufLen then bufLen - 1 else msgLen

theorem set_error_copy_len_eq_min (bufLen msgLen : Nat) (h : 0 < bufLen) :
    set_error_copy_len bufLen msgLen = min msgLen (bufLen - 1) := by
  unfold set_error_copy_len
  rcases Nat.lt_or_ge msgLen bufLen with hlt | hge
  · rw [if_neg (by omega)]
    omega
  · rw [if_pos hge]
    omega

/-- C10: `set_error` with a non-null, positive-capacity buffer writes at most
`capacity - 1` message bytes, NUL-terminates within the capacity, and leaves
the buffer length (capacity) unchanged; with a NULL buffer or zero capacity
it writes nothing. -/
theorem set_error_safe (buf msg : List Char) (h : 0 < buf.length) :
    set_error none msg = none ∧
    set_error (some []) msg = some [] ∧
    ∃ r, set_error (some buf) msg = some r ∧
      r.length = buf.length ∧
      min msg.length (buf.length - 1) ≤ buf.length - 1 ∧
      r.take (min msg.length (buf.length - 1)) =
        msg.take (min msg.length (buf.length - 1)) ∧
      r[min msg.length (buf.length - 1)]? = some nul := by
  refine ⟨rfl, rfl, ?_⟩
  set n := min msg.length (buf.length - 1) with hn
  have hnmsg : n ≤ msg.length := min_le_left _ _
  have hnbuf : n ≤ buf.length - 1 := min_le_right _ _
  have htlen : (msg.take n).length = n := by
    rw [List.length_take]
    omega
  refine ⟨msg.take n ++ nul :: buf.drop (n + 1), ?_, ?_, hnbuf, ?_, ?_⟩
  · simp only [set_error]
    rw [if_neg (by omega)]
    have heq : (if msg.length ≥ buf.length then buf.length - 1 else msg.length) = n := by
      rcases Nat.lt_or_ge msg.length buf.length with hlt | hge
      · rw [if_neg (by omega)]
        omega
      · rw [if_pos hge]
        omega
    simp only [heq]
  · rw [List.length_append, htlen, List.length_cons, List.length_drop]
    omega
  · rw [List.take_append_eq_append_take, htlen]
    have h1 : n - n = 0 := by omega
    rw [h1, List.take_zero, List.append_nil, List.take_take, min_self]
  · rw [List.getElem?_append_right (by omega)]
    rw [htlen]
    simp

/-- C10 witness. -/
theorem set_error_safe_witness :
    set_error none ['h', 'i'] = none :=
  (set_error_safe ['X', 'X', 'X'] ['h', 'i'] (by decide)).1

/-! ## Runtime lifecycle: `pybridge_initialize` (PythonBridge.c lines 17-56) -/

/-- Process-wide bridge state touched by `pybridge_initialize`:
`g_initialized` (the C static), the `PY_BRIDGE_RESOURCE_DIR` environment
variable, and the interpreter's `sys.path`. -/
structure BridgeState where
  g_initialized : Bool
  envResource : Option String
  sysPath : List String
deriving DecidableEq

/-- Outcomes of the CPython calls `pybridge_initialize` makes:
whether `Py_IsInitialized()` holds after `Py_Initialize()`, whether
`PyRun_SimpleString` of the priming script returns 0, and the
`os.path.exists` oracle the priming script consults. -/
structure PyWorld where
  pyInitOk : Bool
  primingOk : Bool
  fileExists : String → Bool

/-- Whether a string ends with the path separator `/`. -/
def endsWithSlash (s : String) : Bool := s.data.getLast? == some '/'

/-- `os.path.join(a, b)` for a non-empty `a` and a relative file name `b`. -/
def osPathJoin (a b : String) : String :=
  if endsWithSlash a then a ++ b else a ++ "/" ++ b

/-- The candidate list built by the priming script (PythonBridge.c lines
40-44): `res = os.environ.get('PY_BRIDGE_RESOURCE_DIR') or ''`, and both
`python-stdlib.zip` and `stdlib.zip` are appended when `res` is truthy. -/
def primeCandidates (envRes : Option String) : List String :=
  let res := envRes.getD ""
  if res = "" then []
  else [osPathJoin res "python-stdlib.zip", osPathJoin res "stdlib.zip"]

/-- The priming script's loop (PythonBridge.c lines 45-47):
`for p in candidates: if os.path.exists(p) and p not in sys.path:
sys.path.insert(0, p)`. -/
def primeLoop (ex : String → Bool) : List String → List String → List String
  | path, [] => path
  | path, p :: rest =>
      primeLoop ex (if ex p && !path.contains p then p :: path else path) rest

/-- The full effect of the priming script on `sys.path`. -/
def primeScript (ex : String → Bool) (envRes : Option String)
    (path : List String) : List String :=
  primeLoop ex path (primeCandidates envRes)

/-- Error message written on `Py_Initialize` failure (line 28). -/
def msgPyInitFailed : List Char := "Py_Initialize failed".toList

/-- Error message written on priming-script failure (line 51). -/
def msgSysPathFailed : List Char := "Failed to set sys.path for stdlib zip".toList

/-- Result of `pybridge_initialize`: the returned status, the (possibly
mutated) caller error buffer, and the new process state. -/
structure InitOut where
  status : Int
  errbuf : Option (List Char)
  state : BridgeState
deriving DecidableEq

/-- The environment variable after the bridge's
`if (resource_dir && *resource_dir) setenv("PY_BRIDGE_RESOURCE_DIR", ...)`
(PythonBridge.c lines 21-23): updated only for a non-null non-empty
`resource_dir`. -/
def setenvResource (resource_dir : Option String) (st : BridgeState) : Option String :=
  match resource_dir with
  | some r => if r = "" then st.envResource else some r
  | none => st.envResource

/-- Embedding of `pybridge_initialize` (PythonBridge.c lines 17-56).
`resource_dir = none` models a NULL pointer.  On priming failure the
partial effect of the failed script on `sys.path` is not modelled (the
path is left unchanged); none of the claims depend on it. -/
def pybridge_initialize (w : PyWorld) (resource_dir : Option String)
    (errbuf : Option (List Char)) (st : BridgeState) : InitOut :=
  if st.g_initialized then ⟨0, errbuf, st⟩
  else
    let st1 : BridgeState := { st with envResource := setenvResource resource_dir st }
    if !w.pyInitOk then
      ⟨-1, set_error errbuf msgPyInitFailed, st1⟩
    else if !w.primingOk then
      ⟨-2, set_error errbuf msgSysPathFailed, st1⟩
    else
      ⟨0, errbuf,
        { st1 with
            sysPath := primeScript w.fileExists st1.envResource st1.sysPath
            g_initialized := true }⟩

/-! ## Lemmas about the priming script and `set_error` round-trips -/

theorem primeLoop_nodup (ex : String → Bool) (cands : List String) :
    ∀ path : List String, path.Nodup → (primeLoop ex path cands).Nodup := by
  induction cands with
  | nil => intro path h; simpa [primeLoop] using h
  | cons p rest ih =>
      intro path h
      simp only [primeLoop]
      by_cases hc : (ex p && !path.contains p) = true
      · rw [if_pos hc]
        apply ih
        have hmem : ¬ p ∈ path := by
          simp only [Bool.and_eq_true] at hc
          simpa using hc.2
        exact List.nodup_cons.mpr ⟨hmem, h⟩
      · rw [if_neg hc]
        exact ih path h

theorem primeLoop_filter (ex : String → Bool) (cands : List String) :
    ∀ path : List String, cands.Nodup →
      primeLoop ex path cands =
        (cands.filter (fun p => ex p && !path.contains p)).reverse ++ path := by
  induction cands with
  | nil =>
      intro path _
      simp [primeLoop]
  | cons p rest ih =>
      intro path hnd
      rw [List.nodup_cons] at hnd
      obtain ⟨hp, hrest⟩ := hnd
      simp only [primeLoop, List.filter_cons]
      by_cases hc : (ex p && !path.contains p) = true
      · rw [if_pos hc, ih (p :: path) hrest]
        have hfilt : rest.filter (fun q => ex q && !(p :: path).contains q)
            = rest.filter (fun q => ex q && !path.contains q) := by
          apply List.filter_congr
          intro q hq
          have hqp : q ≠ p := fun hEq => hp (hEq ▸ hq)
          simp [List.contains_cons, hqp]
        rw [hfilt, if_pos hc, List.reverse_cons, List.append_assoc]
        simp
      · rw [if_neg hc, ih path hrest, if_neg hc]

theorem osPathJoin_candidates_ne (res : String) :
    osPathJoin res "python-stdlib.zip" ≠ osPathJoin res "stdlib.zip" := by
  unfold osPathJoin
  intro hEq
  by_cases h : endsWithSlash res = true
  · rw [if_pos h, if_pos h] at hEq
    have hlen := congrArg String.length hEq
    simp only [String.length_append] at hlen
    have hlit : ("python-stdlib.zip".length : Nat) = "stdlib.zip".length := by omega
    exact absurd hlit (by decide)
  · rw [if_neg h, if_neg h] at hEq
    have hlen := congrArg String.length hEq
    simp only [String.length_append] at hlen
    have hlit : ("python-stdlib.zip".length : Nat) = "stdlib.zip".length := by omega
    exact absurd hlit (by decide)

theorem primeCandidates_nodup (envRes : Option String) :
    (primeCandidates envRes).Nodup := by
  unfold primeCandidates
  by_cases h : envRes.getD "" = ""
  · simp [h]
  · simp only [h, if_neg, if_false]
    refine List.nodup_cons.mpr ⟨?_, List.nodup_singleton _⟩
    simpa using osPathJoin_candidates_ne (envRes.getD "")

theorem cstr_append_nul (m r : List Char) (hm : ∀ c ∈ m, c ≠ nul) :
    cstr (m ++ nul :: r) = m := by
  induction m with
  | nil => simp [cstr]
  | cons a t ih =>
      have ha : a ≠ nul := hm a (List.mem_cons_self a t)
      have iht : cstr (t ++ nul :: r) = t :=
        ih (fun c hc => hm c (List.mem_cons_of_mem a hc))
      simp only [cstr, List.cons_append, List.takeWhile_cons] at iht ⊢
      simp [ha, iht]

/-- When the message fits strictly inside the buffer and contains no NUL,
the C string readable from the buffer after `set_error` is the message. -/
theorem set_error_roundtrip (buf msg : List Char) (h : msg.length < buf.length)
    (hm : ∀ c ∈ msg, c ≠ nul) :
    (set_error (some buf) msg).map cstr = some msg := by
  have h0 : ¬ buf.length = 0 := by omega
  have h1 : ¬ msg.length ≥ buf.length := by omega
  simp only [set_error, h0, if_false, h1, ite_false, Option.map_some]
  rw [List.take_length]
  exact congrArg some (cstr_append_nul msg _ hm)

theorem initialize_success_flag (w : PyWorld) (rd : Option String)
    (buf : Option (List Char)) (st : BridgeState)
    (h : ( pybridge_initialize w rd buf st).status = 0) :
    ( pybridge_initialize w rd buf st).state.g_initialized = true := by
  unfold pybridge_initialize at h ⊢
  by_cases h0 : st.g_initialized
  · simp [h0]
  · by_cases h1 : w.pyInitOk
    · by_cases h2 : w.primingOk
      · simp [h0, h1, h2]
      · simp [h0, h1, h2] at h
    · simp [h0, h1] at h

/-- C5: if a call to `pybridge_initialize` succeeded, any later call (with
any arguments) returns success immediately, leaves the whole process state
(in particular `sys.path`) unchanged, and does not touch the error buffer. -/
theorem initialize_idempotent (w w' : PyWorld) (rd rd' : Option String)
    (buf buf' : Option (List Char)) (st : BridgeState)
    (h : ( pybridge_initialize w rd buf st).status = 0) :
    ( pybridge_initialize w' rd' buf' ( pybridge_initialize w rd buf st).state).status = 0 ∧
    ( pybridge_initialize w' rd' buf' ( pybridge_initialize w rd buf st).state).state =
      ( pybridge_initialize w rd buf st).state ∧
    ( pybridge_initialize w' rd' buf' ( pybridge_initialize w rd buf st).state).errbuf = buf' := by
  have hflag := initialize_success_flag w rd buf st h
  rw [ pybridge_initialize, if_pos hflag]
  exact ⟨rfl, rfl, rfl⟩

/-- C5 witness. -/
theorem initialize_idempotent_witness :
    ( pybridge_initialize ⟨true, true, fun _ => false⟩ none none
        ⟨false, none, []⟩).status = 0 ∧
    ( pybridge_initialize ⟨true, true, fun _ => false⟩ none none
        ( pybridge_initialize ⟨true, true, fun _ => false⟩ none none
          ⟨false, none, []⟩).state).state =
      ( pybridge_initialize ⟨true, true, fun _ => false⟩ none none
        ⟨false, none, []⟩).state :=
  ⟨by decide,
    (initialize_idempotent ⟨true, true, fun _ => false⟩ ⟨true, true, fun _ => false⟩
      none none none none ⟨false, none, []⟩ (by decide)).2.1⟩

/-! ## C6: initialization failure modes -/

/-- C6 counterexample: at a concrete failing input (runtime bring-up fails,
64-byte error buffer) the error buffer holds `"Py_Initialize failed"`, not
the message `"runtime initialization failed"` the claim states; likewise the
priming-failure message is `"Failed to set sys.path for stdlib zip"`, not
`"failed to configure standard library path"`. -/
theorem initialize_messages_counterexample :
    (( pybridge_initialize ⟨false, true, fun _ => false⟩ none
        (some (List.replicate 64 'A')) ⟨false, none, []⟩).errbuf.map cstr) =
      some "Py_Initialize failed".toList ∧
    "Py_Initialize failed".toList ≠ "runtime initialization failed".toList ∧
    (( pybridge_initialize ⟨true, false, fun _ => false⟩ none
        (some (List.replicate 64 'A')) ⟨false, none, []⟩).errbuf.map cstr) =
      some "Failed to set sys.path for stdlib zip".toList ∧
    "Failed to set sys.path for stdlib zip".toList ≠
      "failed to configure standard library path".toList := by
  refine ⟨by decide, by decide, by decide, by decide⟩

/-- C6 amended: the two `pybridge_initialize` failure modes get distinct
status codes (-1 for runtime bring-up failure with message
`"Py_Initialize failed"`, -2 for search-path priming failure with message
`"Failed to set sys.path for stdlib zip"` in the error buffer), and both
leave `g_initialized = false` so a later call may retry. -/
theorem initialize_failure_modes (w : PyWorld) (rd : Option String)
    (buf : List Char) (st : BridgeState)
    (hbuf : 37 < buf.length) (hinit : st.g_initialized = false) :
    (w.pyInitOk = false →
      ( pybridge_initialize w rd (some buf) st).status = -1 ∧
      (( pybridge_initialize w rd (some buf) st).errbuf.map cstr) = some msgPyInitFailed ∧
      ( pybridge_initialize w rd (some buf) st).state.g_initialized = false) ∧
    (w.pyInitOk = true → w.primingOk = false →
      ( pybridge_initialize w rd (some buf) st).status = -2 ∧
      (( pybridge_initialize w rd (some buf) st).errbuf.map cstr) = some msgSysPathFailed ∧
      ( pybridge_initialize w rd (some buf) st).state.g_initialized = false) ∧
    (-1 : Int) ≠ -2 := by
  have hlen1 : msgPyInitFailed.length < buf.length := by
    have : msgPyInitFailed.length = 20 := by decide
    omega
  have hlen2 : msgSysPathFailed.length < buf.length := by
    have : msgSysPathFailed.length = 37 := by decide
    omega
  have hnul1 : ∀ c ∈ msgPyInitFailed, c ≠ nul := by decide
  have hnul2 : ∀ c ∈ msgSysPathFailed, c ≠ nul := by decide
  refine ⟨fun h1 => ?_, fun h1 h2 => ?_, by decide⟩
  · rw [ pybridge_initialize, if_neg (by simp [hinit])]
    rw [if_pos (by simp [h1])]
    exact ⟨rfl, set_error_roundtrip buf msgPyInitFailed hlen1 hnul1, hinit⟩
  · rw [ pybridge_initialize, if_neg (by simp [hinit])]
    rw [if_neg (by simp [h1]), if_pos (by simp [h2])]
    exact ⟨rfl, set_error_roundtrip buf msgSysPathFailed hlen2 hnul2, hinit⟩

/-- C6 witness. -/
theorem initialize_failure_modes_witness :
    ( pybridge_initialize ⟨false, true, fun _ => false⟩ none
        (some (List.replicate 64 'A')) ⟨false, none, []⟩).status = -1 ∧
    ( pybridge_initialize ⟨false, true, fun _ => false⟩ none
        (some (List.replicate 64 'A')) ⟨false, none, []⟩).state.g_initialized = false :=
  have h := initialize_failure_modes ⟨false, true, fun _ => false⟩ none
    (List.replicate 64 'A') ⟨false, none, []⟩ (by decide) (by decide)
  ⟨(h.1 rfl).1, (h.1 rfl).2.2⟩

/-! ## C7: search-path priming -/

/-- The behaviour the spec sentence describes: only the FIRST existing
candidate is considered, and it is inserted at the front of the path if it
is not already present. -/
def primeFirstOnly (ex : String → Bool) (envRes : Option String)
    (path : List String) : List String :=
  match (primeCandidates envRes).filter ex with
  | [] => path
  | p :: _ => if path.contains p then path else p :: path

/-- C7 counterexample: when both archive names exist in the resource
directory, the priming script inserts BOTH at the front (the second probed
candidate ending up frontmost), not exactly the first existing candidate. -/
theorem prime_first_only_counterexample :
    primeScript (fun _ => true) (some "/r") [] =
      ["/r/stdlib.zip", "/r/python-stdlib.zip"] ∧
    primeFirstOnly (fun _ => true) (some "/r") [] = ["/r/python-stdlib.zip"] ∧
    primeScript (fun _ => true) (some "/r") [] ≠
      primeFirstOnly (fun _ => true) (some "/r") [] := by
  refine ⟨by decide, by decide, by decide⟩

/-- C7 amended: on a successful initialization the priming inserts, at the
front of `sys.path` and in probe order, EVERY candidate archive that exists
and is not already present — not only the first — so with both archives
present both are inserted; entries already present are never duplicated. -/
theorem initialize_priming_amended (w : PyWorld) (rd : Option String)
    (buf : Option (List Char)) (st : BridgeState)
    (hinit : st.g_initialized = false) (h1 : w.pyInitOk = true)
    (h2 : w.primingOk = true) :
    ( pybridge_initialize w rd buf st).state.sysPath =
      ((primeCandidates (setenvResource rd st)).filter
          (fun p => w.fileExists p && !st.sysPath.contains p)).reverse
        ++ st.sysPath ∧
    (st.sysPath.Nodup → ( pybridge_initialize w rd buf st).state.sysPath.Nodup) := by
  rw [ pybridge_initialize, if_neg (by simp [hinit])]
  rw [if_neg (by simp [h1]), if_neg (by simp [h2])]
  constructor
  · exact primeLoop_filter w.fileExists _ st.sysPath
      (primeCandidates_nodup (setenvResource rd st))
  · intro hnd
    exact primeLoop_nodup w.fileExists _ st.sysPath hnd

/-- C7 amended witness. -/
theorem initialize_priming_amended_witness :
    ( pybridge_initialize ⟨true, true, fun _ => true⟩ (some "/r") none
        ⟨false, none, []⟩).state.sysPath =
      ["/r/stdlib.zip", "/r/python-stdlib.zip"] :=
  have h := initialize_priming_amended ⟨true, true, fun _ => true⟩ (some "/r") none
    ⟨false, none, []⟩ (by decide) (by decide) (by decide)
  h.1.trans (by decide)

/-! ## Execution session: `pybridge_run` (PythonBridge.c lines 70-146) -/

/-- A value that `sys.stdout` / `sys.stderr` can point to: either an
externally installed target (identified by a number) or one of the two
capture sinks a session creates. -/
inductive Tgt where
  | ext : Nat → Tgt
  | sinkOut : Tgt
  | sinkErr : Tgt
deriving DecidableEq

/-- Process state visible to `pybridge_run`: the lifecycle state plus the
interpreter's current `sys.stdout` / `sys.stderr` targets. -/
structure RunState where
  bridge : BridgeState
  sysStdout : Tgt
  sysStderr : Tgt
deriving DecidableEq

/-- A namespace: the set of top-level names bound in the globals dict. -/
abbrev PyNamespace := List String

/-- Outcome of `PyRun_StringFlags` on the provided source in a given
namespace: success flag, the text the script wrote to `sys.stdout` and to
`sys.stderr` (the installed sinks), the traceback `PyErr_Print` renders
into `sys.stderr` when the run failed, and the final namespace. -/
structure ScriptResult where
  ok : Bool
  out : String
  err : String
  traceback : String
  finalNs : PyNamespace
deriving DecidableEq

/-- Outcomes of the CPython calls `pybridge_run` makes, beyond those of
lazy initialization: the two module imports, the two `StringIO`
constructions, and the two `SetAttrString` redirections. -/
structure RunWorld where
  init : PyWorld
  importSysOk : Bool
  importIoOk : Bool
  newOutOk : Bool
  newErrOk : Bool
  setOutOk : Bool
  setErrOk : Bool

/-- Result of `pybridge_run`.  For the three out-pointers, `none` means
nothing was stored through the pointer (NULL pointer, or an exit path that
never reaches the store); `some v` means `v` was stored (`some none` models
storing NULL). -/
structure RunResult where
  status : Int
  out_stdout : Option (Option String)
  out_stderr : Option (Option String)
  exit_code : Option Int
  state : RunState
  execNs : Option PyNamespace
deriving DecidableEq

/-- The fresh globals dict built for each execution (PythonBridge.c lines
108-111): `PyDict_New()` holding only the `__builtins__` binding. -/
def freshNS : PyNamespace := ["__builtins__"]

/-- The 128-byte stack buffer `pybridge_run` hands to lazy initialization.
Its pre-`set_error` contents are dead: the code reads the buffer only after
a failing `pybridge_initialize` has written and NUL-terminated it. -/
def initErrBuf : List Char := List.replicate 128 'A'

/-- The body of `pybridge_run` after lazy initialization (PythonBridge.c
lines 86-145): publish initial out-parameter values, take the GIL, import
`sys`/`io`, save the old targets, build and install the `StringIO` sinks,
execute the source in a fresh namespace, collect the sink contents, and in
the `done:` block restore the saved targets.  `GetAttrString` on
`sys.stdout`/`sys.stderr`, `PyDict_New`, `PyEval_GetBuiltins`,
`dup_pystring` and the restoring `SetAttrString` calls are modelled as
succeeding. -/
def pybridge_run_body (w : RunWorld) (script : PyNamespace → ScriptResult)
    (wantOut wantErr wantExit : Bool) (st : RunState) : RunResult :=
  let out0 : Option (Option String) := if wantOut then some none else none
  let err0 : Option (Option String) := if wantErr then some none else none
  let ec0 : Option Int := if wantExit then some 0 else none
  if !(w.importSysOk && w.importIoOk) then
    -- rc = -10: old targets never read, sinks never made, nothing restored
    ⟨-10, out0, err0, ec0, st, none⟩
  else
    let oldOut := st.sysStdout
    let oldErr := st.sysStderr
    if !(w.newOutOk && w.newErrOk) then
      -- rc = -11: targets untouched; done restores them to the saved values
      ⟨-11, out0, err0, ec0, { st with sysStdout := oldOut, sysStderr := oldErr }, none⟩
    else if !w.setOutOk then
      -- rc = -12: stdout redirection failed, stderr never attempted
      ⟨-12, out0, err0, ec0, { st with sysStdout := oldOut, sysStderr := oldErr }, none⟩
    else if !w.setErrOk then
      -- rc = -13: stdout was redirected to the sink; done restores it
      ⟨-13, out0, err0, ec0, { st with sysStdout := oldOut, sysStderr := oldErr }, none⟩
    else
      -- both sinks installed; execute in a fresh namespace
      let r := script freshNS
      -- on failure PyErr_Print writes the traceback into the stderr sink
      let errText := r.err ++ (if r.ok then "" else r.traceback)
      ⟨if r.ok then 0 else -1,
        if wantOut then some (some r.out) else none,
        if wantErr then some (some errText) else none,
        if wantExit then some (if r.ok then 0 else 1) else none,
        { st with sysStdout := oldOut, sysStderr := oldErr },
        some freshNS⟩

/-- Embedding of `pybridge_run` (PythonBridge.c lines 70-146).
`wantOut`/`wantErr`/`wantExit` model whether the caller passed non-NULL
`out_stdout`/`out_stderr`/`exit_code` pointers.  When the runtime is not
yet initialized it first runs `pybridge_initialize(NULL, buf, 128)`; on
failure it stores the buffer's message plus `"\n"` through `out_stderr`,
stores 1 through `exit_code`, and returns the initialization status
without executing anything. -/
def pybridge_run (w : RunWorld) (script : PyNamespace → ScriptResult)
    (wantOut wantErr wantExit : Bool) (st : RunState) : RunResult :=
  if st.bridge.g_initialized = false then
    let i := pybridge_initialize w.init none (some initErrBuf) st.bridge
    if i.status ≠ 0 then
      ⟨i.status,
        none,  -- *out_stdout is never written on this path
        if wantErr then
          some (some (String.mk (cstr (i.errbuf.getD [])) ++ "\n"))
        else none,
        if wantExit then some 1 else none,
        { st with bridge := i.state },
        none⟩
    else
      pybridge_run_body w script wantOut wantErr wantExit { st with bridge := i.state }
  else
    pybridge_run_body w script wantOut wantErr wantExit st

/-! ## Lemmas about `pybridge_run` -/

/-- All six session-setup steps (imports, sink construction, redirection)
succeed. -/
def setupOk (w : RunWorld) : Prop :=
  w.importSysOk = true ∧ w.importIoOk = true ∧ w.newOutOk = true ∧
  w.newErrOk = true ∧ w.setOutOk = true ∧ w.setErrOk = true

instance (w : RunWorld) : Decidable (setupOk w) := by
  unfold setupOk
  infer_instance

theorem initialize_fail1 (w : PyWorld) (rd : Option String)
    (buf : Option (List Char)) (st : BridgeState)
    (hinit : st.g_initialized = false) (h1 : w.pyInitOk = false) :
    pybridge_initialize w rd buf st =
      ⟨-1, set_error buf msgPyInitFailed,
        { st with envResource := setenvResource rd st }⟩ := by
  rw [ pybridge_initialize, if_neg (by simp [hinit]), if_pos (by simp [h1])]

theorem initialize_fail2 (w : PyWorld) (rd : Option String)
    (buf : Option (List Char)) (st : BridgeState)
    (hinit : st.g_initialized = false) (h1 : w.pyInitOk = true)
    (h2 : w.primingOk = false) :
    pybridge_initialize w rd buf st =
      ⟨-2, set_error buf msgSysPathFailed,
        { st with envResource := setenvResource rd st }⟩ := by
  rw [ pybridge_initialize, if_neg (by simp [hinit]), if_neg (by simp [h1]),
    if_pos (by simp [h2])]

theorem initialize_success_eq (w : PyWorld) (rd : Option String)
    (buf : Option (List Char)) (st : BridgeState)
    (hinit : st.g_initialized = false) (h1 : w.pyInitOk = true)
    (h2 : w.primingOk = true) :
    pybridge_initialize w rd buf st =
      ⟨0, buf,
        { st with
            envResource := setenvResource rd st
            sysPath := primeScript w.fileExists (setenvResource rd st) st.sysPath
            g_initialized := true }⟩ := by
  rw [ pybridge_initialize, if_neg (by simp [hinit]), if_neg (by simp [h1]),
    if_neg (by simp [h2])]

/-- When the runtime is (or becomes) initialized, `pybridge_run` is its
body on a state with the same output targets. -/
theorem run_ready (w : RunWorld) (script : PyNamespace → ScriptResult)
    (o e x : Bool) (st : RunState)
    (hready : st.bridge.g_initialized = true ∨
      (w.init.pyInitOk = true ∧ w.init.primingOk = true)) :
    ∃ st', pybridge_run w script o e x st = pybridge_run_body w script o e x st' ∧
      st'.sysStdout = st.sysStdout ∧ st'.sysStderr = st.sysStderr := by
  by_cases h0 : st.bridge.g_initialized = false
  · rcases hready with h | ⟨h1, h2⟩
    · rw [h0] at h
      cases h
    · refine ⟨{ st with bridge :=
        ( pybridge_initialize w.init none (some initErrBuf) st.bridge).state }, ?_, rfl, rfl⟩
      rw [pybridge_run, if_pos h0]
      rw [initialize_success_eq w.init none (some initErrBuf) st.bridge h0 h1 h2]
      rfl
  · refine ⟨st, ?_, rfl, rfl⟩
    rw [pybridge_run, if_neg h0]

/-- Characterization of the body when every setup step succeeds. -/
theorem run_body_exec (w : RunWorld) (script : PyNamespace → ScriptResult)
    (o e x : Bool) (st : RunState) (hs : setupOk w) :
    pybridge_run_body w script o e x st =
      ⟨if (script freshNS).ok then 0 else -1,
        if o then some (some (script freshNS).out) else none,
        if e then some (some ((script freshNS).err ++
          (if (script freshNS).ok then "" else (script freshNS).traceback))) else none,
        if x then some (if (script freshNS).ok then 0 else 1) else none,
        { st with sysStdout := st.sysStdout, sysStderr := st.sysStderr },
        some freshNS⟩ := by
  obtain ⟨h1, h2, h3, h4, h5, h6⟩ := hs
  rw [pybridge_run_body, if_neg (by simp [h1, h2]), if_neg (by simp [h3, h4]),
    if_neg (by simp [h5]), if_neg (by simp [h6])]

/-- On a setup failure the body returns one of the internal statuses
-10..-13, stores NULL in the requested output buffers, stores 0 (the
initial value) through `exit_code`, does not execute the source, and
leaves the output targets as restored. -/
theorem run_body_setup_fail (w : RunWorld) (script : PyNamespace → ScriptResult)
    (o e x : Bool) (st : RunState) (hs : ¬ setupOk w) :
    (-13 ≤ (pybridge_run_body w script o e x st).status ∧
      (pybridge_run_body w script o e x st).status ≤ -10) ∧
    (pybridge_run_body w script o e x st).out_stdout = (if o then some none else none) ∧
    (pybridge_run_body w script o e x st).out_stderr = (if e then some none else none) ∧
    (pybridge_run_body w script o e x st).exit_code = (if x then some 0 else none) ∧
    (pybridge_run_body w script o e x st).execNs = none := by
  unfold pybridge_run_body
  by_cases h1 : (w.importSysOk && w.importIoOk) = true
  · by_cases h2 : (w.newOutOk && w.newErrOk) = true
    · by_cases h3 : w.setOutOk = true
      · by_cases h4 : w.setErrOk = true
        · exfalso
          apply hs
          simp only [Bool.and_eq_true] at h1 h2
          exact ⟨h1.1, h1.2, h2.1, h2.2, h3, h4⟩
        · refine ⟨⟨?_, ?_⟩, ?_, ?_, ?_, ?_⟩ <;> simp [h1, h2, h3, h4]
      · refine ⟨⟨?_, ?_⟩, ?_, ?_, ?_, ?_⟩ <;> simp [h1, h2, h3]
    · refine ⟨⟨?_, ?_⟩, ?_, ?_, ?_, ?_⟩ <;> simp [h1, h2]
  · refine ⟨⟨?_, ?_⟩, ?_, ?_, ?_, ?_⟩ <;> simp [h1]

/-- On every path the body leaves `sys.stdout`/`sys.stderr` as it found
them. -/
theorem run_body_restores (w : RunWorld) (script : PyNamespace → ScriptResult)
    (o e x : Bool) (st : RunState) :
    (pybridge_run_body w script o e x st).state.sysStdout = st.sysStdout ∧
    (pybridge_run_body w script o e x st).state.sysStderr = st.sysStderr := by
  unfold pybridge_run_body
  by_cases h1 : (w.importSysOk && w.importIoOk) = true
  · by_cases h2 : (w.newOutOk && w.newErrOk) = true
    · by_cases h3 : w.setOutOk = true
      · by_cases h4 : w.setErrOk = true
        · simp [h1, h2, h3, h4]
        · simp [h1, h2, h3, h4]
      · simp [h1, h2, h3]
    · simp [h1, h2]
  · simp [h1]

/-- The body either does not execute the source or executes it in the
fresh namespace. -/
theorem run_body_execNs (w : RunWorld) (script : PyNamespace → ScriptResult)
    (o e x : Bool) (st : RunState) :
    (pybridge_run_body w script o e x st).execNs = none ∨
    (pybridge_run_body w script o e x st).execNs = some freshNS := by
  unfold pybridge_run_body
  by_cases h1 : (w.importSysOk && w.importIoOk) = true
  · by_cases h2 : (w.newOutOk && w.newErrOk) = true
    · by_cases h3 : w.setOutOk = true
      · by_cases h4 : w.setErrOk = true
        · right
          simp [h1, h2, h3, h4]
        · left
          simp [h1, h2, h3, h4]
      · left
        simp [h1, h2, h3]
    · left
      simp [h1, h2]
  · left
    simp [h1]

/-- `pybridge_run` either does not execute the source or executes it in
the fresh namespace. -/
theorem run_execNs (w : RunWorld) (script : PyNamespace → ScriptResult)
    (o e x : Bool) (st : RunState) :
    (pybridge_run w script o e x st).execNs = none ∨
    (pybridge_run w script o e x st).execNs = some freshNS := by
  unfold pybridge_run
  by_cases h0 : st.bridge.g_initialized = false
  · rw [if_pos h0]
    by_cases hs : ( pybridge_initialize w.init none (some initErrBuf) st.bridge).status ≠ 0
    · left
      simp [hs]
    · simp only [hs, if_neg, ite_false]
      exact run_body_execNs w script o e x _
  · rw [if_neg h0]
    exact run_body_execNs w script o e x st

/-! ## Concrete instances used by counterexamples and witnesses -/

def pwOk : PyWorld := ⟨true, true, fun _ => false⟩

def rwAllOk : RunWorld := ⟨pwOk, true, true, true, true, true, true⟩

def rwNoInit : RunWorld := ⟨⟨false, true, fun _ => false⟩, true, true, true, true, true, true⟩

def rwNoSink : RunWorld := ⟨pwOk, true, true, false, true, true, true⟩

def stFresh : RunState := ⟨⟨false, none, []⟩, Tgt.ext 0, Tgt.ext 1⟩

def stReady : RunState := ⟨⟨true, none, []⟩, Tgt.ext 0, Tgt.ext 1⟩

def okScript : PyNamespace → ScriptResult := fun ns => ⟨true, "hi\n", "", "", ns⟩

def failScript : PyNamespace → ScriptResult :=
  fun ns => ⟨false, "", "", "ValueError: x", ns⟩

def defScript : PyNamespace → ScriptResult := fun ns => ⟨true, "", "", "", "v" :: ns⟩

/-! ## C1: statusCode taxonomy -/

/-- C1 counterexample: a lifecycle failure (runtime bring-up fails during
lazy initialization; nothing is executed) and a script-level failure both
return statusCode -1, so a caller cannot tell them apart from the
statusCode alone. -/
theorem run_status_collision :
    (pybridge_run rwNoInit okScript true true true stFresh).status = -1 ∧
    (pybridge_run rwNoInit okScript true true true stFresh).execNs = none ∧
    (pybridge_run rwAllOk failScript true true true stReady).status = -1 ∧
    (pybridge_run rwAllOk failScript true true true stReady).execNs = some freshNS ∧
    (pybridge_run rwAllOk failScript true true true stReady).exit_code = some 1 :=
  ⟨by decide, by decide, by decide, by decide, by decide⟩

/-- C1 amended: statusCode is 0 on success; session-setup failures return
a value in -13..-10 and the priming lifecycle failure returns -2, both
distinct from the script-failure value -1; but the runtime bring-up
lifecycle failure also returns -1, so THAT lifecycle failure is not
distinguishable from a script failure by statusCode alone. -/
theorem run_statusCode_amended (w : RunWorld) (script : PyNamespace → ScriptResult)
    (o e x : Bool) (st : RunState) :
    ((st.bridge.g_initialized = true ∨
        (w.init.pyInitOk = true ∧ w.init.primingOk = true)) →
      setupOk w → (script freshNS).ok = true →
      (pybridge_run w script o e x st).status = 0) ∧
    ((st.bridge.g_initialized = true ∨
        (w.init.pyInitOk = true ∧ w.init.primingOk = true)) →
      setupOk w → (script freshNS).ok = false →
      (pybridge_run w script o e x st).status = -1) ∧
    ((st.bridge.g_initialized = true ∨
        (w.init.pyInitOk = true ∧ w.init.primingOk = true)) →
      ¬ setupOk w →
      (-13 ≤ (pybridge_run w script o e x st).status ∧
        (pybridge_run w script o e x st).status ≤ -10)) ∧
    (st.bridge.g_initialized = false → w.init.pyInitOk = false →
      (pybridge_run w script o e x st).status = -1) ∧
    (st.bridge.g_initialized = false → w.init.pyInitOk = true →
      w.init.primingOk = false →
      (pybridge_run w script o e x st).status = -2) := by
  refine ⟨?_, ?_, ?_, ?_, ?_⟩
  · intro hready hs hok
    obtain ⟨st', heq, -, -⟩ := run_ready w script o e x st hready
    rw [heq, run_body_exec w script o e x st' hs, hok]
    simp
  · intro hready hs hok
    obtain ⟨st', heq, -, -⟩ := run_ready w script o e x st hready
    rw [heq, run_body_exec w script o e x st' hs, hok]
    simp
  · intro hready hs
    obtain ⟨st', heq, -, -⟩ := run_ready w script o e x st hready
    rw [heq]
    exact (run_body_setup_fail w script o e x st' hs).1
  · intro h0 h1
    rw [pybridge_run, if_pos h0,
      initialize_fail1 w.init none (some initErrBuf) st.bridge h0 h1]
    rfl
  · intro h0 h1 h2
    rw [pybridge_run, if_pos h0,
      initialize_fail2 w.init none (some initErrBuf) st.bridge h0 h1 h2]
    rfl

/-- C1 amended witness. -/
theorem run_statusCode_amended_witness :
    (pybridge_run rwAllOk okScript true true true stReady).status = 0 :=
  (run_statusCode_amended rwAllOk okScript true true true stReady).1
    (Or.inl (by decide)) (by decide) (by decide)

/-! ## C2: session setup failure -/

/-- C2 counterexample: at a concrete input where constructing the stdout
capture sink fails, `pybridge_run` returns the distinct internal status
-11 and stores NULL in both output buffers, but stores exitCode 0 — not
the exitCode 1 the claim states. -/
theorem run_setup_failure_counterexample :
    (pybridge_run rwNoSink okScript true true true stReady).status = -11 ∧
    (pybridge_run rwNoSink okScript true true true stReady).out_stdout = some none ∧
    (pybridge_run rwNoSink okScript true true true stReady).out_stderr = some none ∧
    (pybridge_run rwNoSink okScript true true true stReady).exit_code = some 0 ∧
    (pybridge_run rwNoSink okScript true true true stReady).exit_code ≠ some 1 :=
  ⟨by decide, by decide, by decide, by decide, by decide⟩

/-- C2 amended: when session setup fails, `pybridge_run` returns a distinct
non-zero internal status (-13..-10), neither output buffer is populated
(NULL is stored in each requested one), the source is not executed, and the
result's exitCode is 0 — the value it was initialized to — not 1; only the
internal status signals the failure. -/
theorem run_setup_failure_amended (w : RunWorld) (script : PyNamespace → ScriptResult)
    (o e x : Bool) (st : RunState)
    (hready : st.bridge.g_initialized = true ∨
      (w.init.pyInitOk = true ∧ w.init.primingOk = true))
    (hs : ¬ setupOk w) :
    (-13 ≤ (pybridge_run w script o e x st).status ∧
      (pybridge_run w script o e x st).status ≤ -10) ∧
    (pybridge_run w script o e x st).out_stdout = (if o then some none else none) ∧
    (pybridge_run w script o e x st).out_stderr = (if e then some none else none) ∧
    (pybridge_run w script o e x st).exit_code = (if x then some 0 else none) ∧
    (pybridge_run w script o e x st).execNs = none := by
  obtain ⟨st', heq, -, -⟩ := run_ready w script o e x st hready
  rw [heq]
  exact run_body_setup_fail w script o e x st' hs

/-- C2 amended witness. -/
theorem run_setup_failure_amended_witness :
    (pybridge_run rwNoSink okScript true true true stReady).status = -11 ∧
    (pybridge_run rwNoSink okScript true true true stReady).exit_code = some 0 :=
  have h := run_setup_failure_amended rwNoSink okScript true true true stReady
    (Or.inl (by decide)) (by decide)
  ⟨by decide, h.2.2.2.1.trans (by decide)⟩

/-! ## C3: lazy initialization failure -/

set_option maxRecDepth 8000 in
/-- C3: when the runtime is uninitialized and lazy initialization (with a
NULL resource directory) fails, `pybridge_run` stores exitCode 1, stores
the initialization error message plus a trailing newline through the
stderr out-parameter when requested, and does not execute the source. -/
theorem run_lazy_init_failure (w : RunWorld) (script : PyNamespace → ScriptResult)
    (o e x : Bool) (st : RunState)
    (hinit : st.bridge.g_initialized = false)
    (hfail : w.init.pyInitOk = false ∨ w.init.primingOk = false) :
    (pybridge_run w script o e x st).exit_code = (if x then some 1 else none) ∧
    (pybridge_run w script o e x st).execNs = none ∧
    (pybridge_run w script o e x st).status ≠ 0 ∧
    (w.init.pyInitOk = false →
      (pybridge_run w script o e x st).out_stderr =
        (if e then some (some "Py_Initialize failed\n") else none)) ∧
    (w.init.pyInitOk = true → w.init.primingOk = false →
      (pybridge_run w script o e x st).out_stderr =
        (if e then some (some "Failed to set sys.path for stdlib zip\n") else none)) := by
  by_cases hp : w.init.pyInitOk = true
  · have h2 : w.init.primingOk = false := by
      rcases hfail with h | h
      · rw [hp] at h
        cases h
      · exact h
    have hmsg : String.mk (cstr ((set_error (some initErrBuf) msgSysPathFailed).getD []))
        ++ "\n" = "Failed to set sys.path for stdlib zip\n" := by decide
    simp only [pybridge_run, hinit,
      initialize_fail2 w.init none (some initErrBuf) st.bridge hinit hp h2, hmsg]
    refine ⟨by simp, by simp, by simp, fun hq => ?_, fun _ _ => by simp⟩
    rw [hp] at hq
    cases hq
  · have hp' : w.init.pyInitOk = false := by
      cases hb : w.init.pyInitOk
      · rfl
      · exact absurd hb hp
    have hmsg : String.mk (cstr ((set_error (some initErrBuf) msgPyInitFailed).getD []))
        ++ "\n" = "Py_Initialize failed\n" := by decide
    simp only [pybridge_run, hinit,
      initialize_fail1 w.init none (some initErrBuf) st.bridge hinit hp', hmsg]
    refine ⟨by simp, by simp, by simp, fun _ => by simp, fun hq _ => ?_⟩
    rw [hq] at hp'
    cases hp'

/-- C3 witness. -/
theorem run_lazy_init_failure_witness :
    (pybridge_run rwNoInit okScript true true true stFresh).exit_code = some 1 ∧
    (pybridge_run rwNoInit okScript true true true stFresh).out_stderr =
      some (some "Py_Initialize failed\n") ∧
    (pybridge_run rwNoInit okScript true true true stFresh).execNs = none :=
  have h := run_lazy_init_failure rwNoInit okScript true true true stFresh
    (by decide) (Or.inl (by decide))
  ⟨h.1.trans (by decide), (h.2.2.2.1 (by decide)).trans (by decide), h.2.1⟩

/-! ## C4: restoration of output targets -/

/-- C4: on every exit path of `pybridge_run` — normal completion, script
error, setup failure, or lazy-initialization failure — the previously
installed `sys.stdout` and `sys.stderr` targets are in place when the call
returns: the call leaves the process's output routing unchanged. -/
theorem run_restores_output_targets (w : RunWorld) (script : PyNamespace → ScriptResult)
    (o e x : Bool) (st : RunState) :
    (pybridge_run w script o e x st).state.sysStdout = st.sysStdout ∧
    (pybridge_run w script o e x st).state.sysStderr = st.sysStderr := by
  unfold pybridge_run
  by_cases h0 : st.bridge.g_initialized = false
  · rw [if_pos h0]
    by_cases hs : ( pybridge_initialize w.init none (some initErrBuf) st.bridge).status ≠ 0
    · simp [hs]
    · simp only [hs, ite_false]
      exact run_body_restores w script o e x _
  · rw [if_neg h0]
    exact run_body_restores w script o e x st

/-! ## C8: fresh namespace per call -/

/-- C8: every execution happens in the fresh namespace (a new empty dict
holding only `__builtins__`), so across two successive `run` calls a
variable bound at top level by the first call's script is not visible in
the namespace the second call starts from — whatever the first call did. -/
theorem run_namespace_isolation (w₁ w₂ : RunWorld)
    (s₁ s₂ : PyNamespace → ScriptResult) (o₁ e₁ x₁ o₂ e₂ x₂ : Bool)
    (st : RunState) (v : String)
    (hv : v ≠ "__builtins__") (_hdef : v ∈ (s₁ freshNS).finalNs) :
    ∀ ns₂,
      (pybridge_run w₂ s₂ o₂ e₂ x₂
        (pybridge_run w₁ s₁ o₁ e₁ x₁ st).state).execNs = some ns₂ →
      ns₂.contains v = false := by
  intro ns₂ h
  rcases run_execNs w₂ s₂ o₂ e₂ x₂ (pybridge_run w₁ s₁ o₁ e₁ x₁ st).state with h' | h'
  · rw [h'] at h
    cases h
  · rw [h'] at h
    injection h with h
    subst h
    simp [freshNS, List.contains_cons, hv]

/-- C8 witness: the first call's script binds `"v"`; the second call still
starts from the fresh namespace, which does not contain `"v"`. -/
theorem run_namespace_isolation_witness :
    freshNS.contains "v" = false :=
  run_namespace_isolation rwAllOk rwAllOk defScript okScript
    true true true true true true stFresh "v" (by decide) (by decide)
    freshNS (by decide)

/-! ## C9: cooperative cancellation -/

/-- Modelled from the spec: `pybridge_request_stop` is declared in
`PythonBridge.h` (lines 32-35) but its definition is not under `src/`.
Per spec 4.4 its underlying queuing primitive (conceptually
`PyErr_SetInterrupt`-style queuing of a `KeyboardInterrupt`) succeeds and
records a pending interrupt exactly when the runtime is able to accept one
(e.g. it is initialized); `none` models primitive failure. -/
def queueInterruptPrimitive (runtimeReady : Bool) : Option Unit :=
  if runtimeReady then some () else none

/-- Modelled from the spec: `pybridge_request_stop` invokes the queuing
primitive and returns 0 exactly when it succeeded, a non-zero status when
the primitive itself failed; the second component is whether an interrupt
is now pending against the running code path. -/
def pybridge_request_stop (runtimeReady : Bool) : Int × Bool :=
  match queueInterruptPrimitive runtimeReady with
  | some _ => (0, true)
  | none => (-1, false)

/-- C9: `pybridge_request_stop` returns a failure status precisely when
the underlying queuing primitive fails (e.g. the runtime is not
initialized); on success an interrupt is queued against the currently
executing code path. -/
theorem request_stop_spec (runtimeReady : Bool) :
    ((pybridge_request_stop runtimeReady).1 ≠ 0 ↔
      queueInterruptPrimitive runtimeReady = none) ∧
    (queueInterruptPrimitive runtimeReady ≠ none →
      (pybridge_request_stop runtimeReady).1 = 0 ∧
      (pybridge_request_stop runtimeReady).2 = true) := by
  cases runtimeReady
  · refine ⟨⟨fun _ => rfl, fun _ => by decide⟩, fun h => absurd rfl h⟩
  · refine ⟨⟨fun h => absurd rfl h, fun h => by cases h⟩, fun _ => ⟨rfl, rfl⟩⟩

/-- C9 witness. -/
theorem request_stop_spec_witness :
    (pybridge_request_stop true).1 = 0 ∧ (pybridge_request_stop true).2 = true :=
  (request_stop_spec true).2 (by decide)

end PyBridge
